import Mathlib

/-!
Shallow embedding of the delete-participant use case
(`DeleteUserHandler.Handle` in
`src/backend/ApiService/Source/Application/UseCases/User/Handlers/DeleteUserHandler.cs`)
of the Secret Santa room-management application, together with theorems
settling the specification claims about it.

Repositories (`IUserReadOnlyRepository`, `IRoomRepository`) are modelled as an
environment of pure functions returning `Except`-style results; the handler is
a pure function from the environment and the request to the handler result
paired with the ordered trace of repository calls it issued, so that claims
about which persistence calls occur are statable.
-/

namespace SecretSanta

/-- A participant (`Domain.Entities.User.User`): integer id, opaque
authorization code, admin flag, owning-room id. Other personal fields are
immaterial to this use case. -/
structure User where
  id : Nat
  authCode : String
  isAdmin : Bool
  roomId : Nat
deriving Repr, DecidableEq

/-- A room aggregate (`Domain.Aggregate.Room.Room`): id, closed timestamp
(`null` while open, modelled as `Option Nat`), and its Users collection. -/
structure Room where
  id : Nat
  closedOn : Option Nat
  users : List User
deriving Repr, DecidableEq

/-- A `FluentValidation.Results.ValidationFailure`: (field, message) pair. -/
structure ValidationFailure where
  propertyName : String
  errorMessage : String
deriving Repr, DecidableEq

/-- The three error kinds exposed by the use case
(`NotFoundError`, `ForbiddenError`, `BadRequestError`, all subclasses of
`ValidationResult` in `Domain.Shared.ValidationErrors`). -/
inductive ErrorKind where
  | notFound
  | forbidden
  | badRequest
deriving Repr, DecidableEq

/-- A typed failure: an error kind tag with a list of validation failures. -/
structure ValidationError where
  kind : ErrorKind
  errors : List ValidationFailure
deriving Repr, DecidableEq

/-- `new NotFoundError([...])`. -/
def NotFoundError (errs : List ValidationFailure) : ValidationError :=
  ⟨ErrorKind.notFound, errs⟩

/-- `new ForbiddenError([...])`. -/
def ForbiddenError (errs : List ValidationFailure) : ValidationError :=
  ⟨ErrorKind.forbidden, errs⟩

/-- `new BadRequestError([...])`. -/
def BadRequestError (errs : List ValidationFailure) : ValidationError :=
  ⟨ErrorKind.badRequest, errs⟩

deriving instance DecidableEq for Except

/-- `DeleteUserCommand(string UserCode, ulong UserId)`. -/
structure DeleteUserCommand where
  userCode : String
  userId : Nat
deriving Repr, DecidableEq

/-- One repository call issued by the handler, with its arguments.
`getByCode` and `getById` carry the `includeRoom`/`includeWishes` flags of
`IUserReadOnlyRepository`; `update` carries the room aggregate passed to
`IRoomRepository.UpdateAsync`. -/
inductive RepoCall where
  | getByCode (code : String) (includeRoom includeWishes : Bool)
  | getById (id : Nat) (includeRoom includeWishes : Bool)
  | getRoomByUserCode (code : String)
  | update (room : Room)
deriving Repr, DecidableEq

/-- Whether a repository call is an `UpdateAsync` persistence call. -/
def RepoCall.isUpdate : RepoCall → Bool
  | RepoCall.update _ => true
  | _ => false

/-- The repository environment: the behaviour of
`IUserReadOnlyRepository.GetByCodeAsync`, `IUserReadOnlyRepository.GetByIdAsync`,
`IRoomRepository.GetByUserCodeAsync` and `IRoomRepository.UpdateAsync` for one
invocation. `UpdateAsync` returns the non-generic C# `Result`, whose error is
a plain string. -/
structure Env where
  getByCodeAsync : String → Bool → Bool → Except ValidationError User
  getByIdAsync : Nat → Bool → Bool → Except ValidationError User
  getRoomByUserCodeAsync : String → Except ValidationError Room
  updateAsync : Room → Except String Unit

/-- Step 8 of the handler: `room.Users.FirstOrDefault(u => u.Id == request.UserId)`
followed by `room.Users.Remove(userToRemove)` when the result is non-null.
Removing the found element is removing the first element whose id matches. -/
def removeUser (room : Room) (userId : Nat) : Room :=
  match room.users.find? (fun u => u.id == userId) with
  | some _ => { room with users := room.users.eraseP (fun u => u.id == userId) }
  | none => room

/-- The handler `DeleteUserHandler.Handle`, translated statement by statement
from the C# source. Returns the handler result (`Result<Unit, ValidationResult>`
as `Except ValidationError Unit`) together with the ordered list of repository
calls issued. -/
def handle (env : Env) (request : DeleteUserCommand) :
    Except ValidationError Unit × List RepoCall :=
  -- 1. Get admin user by userCode
  match env.getByCodeAsync request.userCode true false with
  | Except.error _ =>
      (Except.error (NotFoundError [⟨"userCode", "User with such code not found"⟩]),
       [RepoCall.getByCode request.userCode true false])
  | Except.ok adminUser =>
    -- 2. Check if user is admin
    if !adminUser.isAdmin then
      (Except.error (ForbiddenError [⟨"userCode", "Only admin can delete users from the room"⟩]),
       [RepoCall.getByCode request.userCode true false])
    else
      -- 3. Get user to delete by id
      match env.getByIdAsync request.userId false false with
      | Except.error _ =>
          (Except.error (NotFoundError [⟨"id", "User with such id not found"⟩]),
           [RepoCall.getByCode request.userCode true false,
            RepoCall.getById request.userId false false])
      | Except.ok userToDelete =>
        -- 4. Check if both users belong to the same room
        if adminUser.roomId ≠ userToDelete.roomId then
          (Except.error (ForbiddenError
             [⟨"id", "User with userCode and user with id belong to different rooms"⟩]),
           [RepoCall.getByCode request.userCode true false,
            RepoCall.getById request.userId false false])
        -- 5. Check if admin is not trying to delete himself
        else if adminUser.id = userToDelete.id then
          (Except.error (BadRequestError [⟨"id", "Admin cannot delete himself"⟩]),
           [RepoCall.getByCode request.userCode true false,
            RepoCall.getById request.userId false false])
        else
          -- 6. Get room to check if it's closed
          match env.getRoomByUserCodeAsync request.userCode with
          | Except.error e =>
              (Except.error e,
               [RepoCall.getByCode request.userCode true false,
                RepoCall.getById request.userId false false,
                RepoCall.getRoomByUserCode request.userCode])
          | Except.ok room =>
            -- 7. Check if room is not closed
            if room.closedOn ≠ none then
              (Except.error (BadRequestError [⟨"room", "Cannot delete user from a closed room"⟩]),
               [RepoCall.getByCode request.userCode true false,
                RepoCall.getById request.userId false false,
                RepoCall.getRoomByUserCode request.userCode])
            else
              -- 8. Remove user from room
              let room' := removeUser room request.userId
              -- 9. Update room in database
              match env.updateAsync room' with
              | Except.error msg =>
                  (Except.error (BadRequestError [⟨"", msg⟩]),
                   [RepoCall.getByCode request.userCode true false,
                    RepoCall.getById request.userId false false,
                    RepoCall.getRoomByUserCode request.userCode,
                    RepoCall.update room'])
              | Except.ok _ =>
                  (Except.ok (),
                   [RepoCall.getByCode request.userCode true false,
                    RepoCall.getById request.userId false false,
                    RepoCall.getRoomByUserCode request.userCode,
                    RepoCall.update room'])

/-! ### Concrete fixtures used by witnesses and counterexamples -/

/-- Admin of room 1 (id 1). -/
def adminA : User := ⟨1, "admin-code", true, 1⟩

/-- Ordinary member of room 1 (id 2). -/
def userB : User := ⟨2, "b-code", false, 1⟩

/-- A user (id 3) recorded as belonging to room 1 but absent from the loaded
room's Users collection. -/
def userC : User := ⟨3, "c-code", false, 1⟩

/-- A user (id 4) belonging to a different room (room 2). -/
def userD : User := ⟨4, "d-code", false, 2⟩

/-- Room 1, open, containing the admin and one ordinary member. -/
def openRoom : Room := ⟨1, none, [adminA, userB]⟩

/-- Room 1, closed at time 5, same members. -/
def closedRoom : Room := ⟨1, some 5, [adminA, userB]⟩

/-- Happy-path repositories: "admin-code" resolves the admin, "b-code" the
ordinary member; ids 1-4 resolve the corresponding users; the room is open and
the update succeeds. -/
def baseEnv : Env where
  getByCodeAsync := fun code _ _ =>
    if code = "admin-code" then Except.ok adminA
    else if code = "b-code" then Except.ok userB
    else Except.error (NotFoundError [⟨"userCode", "User with such code not found"⟩])
  getByIdAsync := fun uid _ _ =>
    if uid = 1 then Except.ok adminA
    else if uid = 2 then Except.ok userB
    else if uid = 3 then Except.ok userC
    else if uid = 4 then Except.ok userD
    else Except.error (NotFoundError [⟨"id", "User with such id not found"⟩])
  getRoomByUserCodeAsync := fun code =>
    if code = "admin-code" then Except.ok openRoom
    else Except.error (NotFoundError [⟨"userCode", "Room not found"⟩])
  updateAsync := fun _ => Except.ok ()

/-- Like `baseEnv` but the room loads closed. -/
def closedEnv : Env :=
  { baseEnv with getRoomByUserCodeAsync := fun code =>
      if code = "admin-code" then Except.ok closedRoom
      else Except.error (NotFoundError [⟨"userCode", "Room not found"⟩]) }

/-- Like `baseEnv` but the room lookup fails with a Forbidden error of the
repository's own making. -/
def roomFailEnv : Env :=
  { baseEnv with getRoomByUserCodeAsync := fun _ =>
      Except.error (ForbiddenError [⟨"q", "room blocked by repository"⟩]) }

/-- Like `baseEnv` but the persistence update fails. -/
def failUpdateEnv : Env :=
  { baseEnv with updateAsync := fun _ => Except.error "Database update failed" }

/-- Repositories whose user lookups fail with a Forbidden error carrying
repository-specific content (not an absence error). -/
def weirdUserEnv : Env :=
  { baseEnv with
      getByCodeAsync := fun _ _ _ =>
        Except.error (ForbiddenError [⟨"infra", "connection refused"⟩]),
      getByIdAsync := fun _ _ _ =>
        Except.error (ForbiddenError [⟨"infra", "connection refused"⟩]) }

/-- Like `baseEnv` except the admin lookup works and the target lookup fails
with a repository-specific Forbidden error. -/
def weirdTargetEnv : Env :=
  { baseEnv with
      getByIdAsync := fun _ _ _ =>
        Except.error (ForbiddenError [⟨"infra", "connection refused"⟩]) }

/-- A user record reporting the admin's id (1) but a different room (room 2),
as an inconsistent or stale id lookup could return. -/
def sameIdOtherRoom : User := ⟨1, "z-code", false, 2⟩

/-- Like `baseEnv` but the id lookup for id 1 reports `sameIdOtherRoom`. -/
def c4Env : Env :=
  { baseEnv with getByIdAsync := fun uid _ _ =>
      if uid = 1 then Except.ok sameIdOtherRoom
      else Except.error (NotFoundError [⟨"id", "User with such id not found"⟩]) }

/-! ### Helper lemmas -/

/-- In a list of users with pairwise-distinct ids, erasing the first user whose
id matches `uid` leaves no user with id `uid`. -/
theorem eraseP_id_ne (uid : Nat) (l : List User)
    (hpw : l.Pairwise (fun a b => a.id ≠ b.id)) :
    ∀ u ∈ l.eraseP (fun v => v.id == uid), u.id ≠ uid := by
  induction l with
  | nil => intro u hu; simp [List.eraseP] at hu
  | cons a l ih =>
    rw [List.pairwise_cons] at hpw
    intro u hu
    by_cases ha : a.id = uid
    · rw [List.eraseP_cons, show (a.id == uid) = true by simp [ha]] at hu
      simp only [cond_true] at hu
      intro huid
      exact hpw.1 u hu (by rw [ha, huid])
    · rw [List.eraseP_cons, show (a.id == uid) = false by simp [ha]] at hu
      simp only [cond_false, List.mem_cons] at hu
      rcases hu with rfl | hu
      · exact ha
      · exact ih hpw.2 u hu

/-- When no user in the room has the requested id, step 8 is a no-op. -/
theorem removeUser_noop (room : Room) (uid : Nat)
    (h : ∀ u ∈ room.users, u.id ≠ uid) :
    removeUser room uid = room := by
  unfold removeUser
  rw [List.find?_eq_none.mpr (by intro u hu; simpa using h u hu)]

/-! ### Claim theorems -/

/-- Claim C6: whenever the admin lookup by `adminAuthCode` fails (the code does
not resolve a Participant), the handler returns a NotFound error tagged on
field `userCode` with message "User with such code not found", and the only
repository call issued is that lookup. -/
theorem C6_admin_not_found (env : Env) (code : String) (uid : Nat)
    (e : ValidationError)
    (h1 : env.getByCodeAsync code true false = Except.error e) :
    (handle env ⟨code, uid⟩).1 =
      Except.error (NotFoundError [⟨"userCode", "User with such code not found"⟩]) ∧
    (handle env ⟨code, uid⟩).2 = [RepoCall.getByCode code true false] := by
  refine ⟨?_, ?_⟩ <;> simp only [handle, h1]

/-- Witness for C6: a concrete environment whose user lookup fails (here even
with a Forbidden error, not an absence error) yields the fixed NotFound result
and a single repository call. -/
theorem C6_admin_not_found_witness :
    (handle weirdUserEnv ⟨"admin-code", 2⟩).1 =
      Except.error (NotFoundError [⟨"userCode", "User with such code not found"⟩]) ∧
    (handle weirdUserEnv ⟨"admin-code", 2⟩).2 =
      [RepoCall.getByCode "admin-code" true false] :=
  C6_admin_not_found weirdUserEnv "admin-code" 2
    (ForbiddenError [⟨"infra", "connection refused"⟩]) (by decide)

/-- Claim C3: whenever the admin lookup resolves a user whose admin flag is
false, the handler returns a Forbidden error tagged on field `userCode` with
message "Only admin can delete users from the room", for every target id, and
the only repository call issued is the admin lookup (no GetByIdAsync, no room
load, no update). -/
theorem C3_non_admin_forbidden (env : Env) (code : String) (uid : Nat)
    (admin : User)
    (h1 : env.getByCodeAsync code true false = Except.ok admin)
    (h2 : admin.isAdmin = false) :
    (handle env ⟨code, uid⟩).1 =
      Except.error (ForbiddenError [⟨"userCode", "Only admin can delete users from the room"⟩]) ∧
    (handle env ⟨code, uid⟩).2 = [RepoCall.getByCode code true false] := by
  refine ⟨?_, ?_⟩ <;> simp only [handle, h1, h2, Bool.not_false, if_true]

/-- Witness for C3: the ordinary member "b-code" attempting a delete is
rejected with Forbidden after one repository call, even though the target id
(here 99) is invalid. -/
theorem C3_non_admin_forbidden_witness :
    (handle baseEnv ⟨"b-code", 99⟩).1 =
      Except.error (ForbiddenError [⟨"userCode", "Only admin can delete users from the room"⟩]) ∧
    (handle baseEnv ⟨"b-code", 99⟩).2 = [RepoCall.getByCode "b-code" true false] :=
  C3_non_admin_forbidden baseEnv "b-code" 99 userB (by decide) (by decide)

/-- Claim C5: when the admin lookup resolves an admin and the target lookup
resolves a user in a different room, the handler returns a Forbidden error
tagged on field `id` with the different-rooms message, and no room load or
update call is issued (the trace is exactly the two user lookups). -/
theorem C5_different_rooms (env : Env) (code : String) (uid : Nat)
    (admin target : User)
    (h1 : env.getByCodeAsync code true false = Except.ok admin)
    (h2 : admin.isAdmin = true)
    (h3 : env.getByIdAsync uid false false = Except.ok target)
    (h4 : admin.roomId ≠ target.roomId) :
    (handle env ⟨code, uid⟩).1 =
      Except.error (ForbiddenError
        [⟨"id", "User with userCode and user with id belong to different rooms"⟩]) ∧
    (handle env ⟨code, uid⟩).2 =
      [RepoCall.getByCode code true false, RepoCall.getById uid false false] := by
  refine ⟨?_, ?_⟩ <;> simp [handle, h1, h2, h3, h4]

/-- Witness for C5: the admin of room 1 deleting user id 4 (who belongs to
room 2) is rejected with Forbidden on `id` after exactly the two user
lookups. -/
theorem C5_different_rooms_witness :
    (handle baseEnv ⟨"admin-code", 4⟩).1 =
      Except.error (ForbiddenError
        [⟨"id", "User with userCode and user with id belong to different rooms"⟩]) ∧
    (handle baseEnv ⟨"admin-code", 4⟩).2 =
      [RepoCall.getByCode "admin-code" true false, RepoCall.getById 4 false false] :=
  C5_different_rooms baseEnv "admin-code" 4 adminA userD (by decide) (by decide)
    (by decide) (by decide)

/-- Counterexample for claim C4 as stated: the resolved admin and resolved
target have the same id (1), but the target lookup reports a different room id;
the handler then returns the different-rooms Forbidden error of step 4, not the
self-deletion BadRequest — the same-room check fires before the self-deletion
guard. -/
theorem C4_counterexample :
    (c4Env.getByCodeAsync "admin-code" true false = Except.ok adminA) ∧
    adminA.isAdmin = true ∧
    (c4Env.getByIdAsync 1 false false = Except.ok sameIdOtherRoom) ∧
    sameIdOtherRoom.id = adminA.id ∧
    (handle c4Env ⟨"admin-code", 1⟩).1 =
      Except.error (ForbiddenError
        [⟨"id", "User with userCode and user with id belong to different rooms"⟩]) ∧
    (handle c4Env ⟨"admin-code", 1⟩).1 ≠
      Except.error (BadRequestError [⟨"id", "Admin cannot delete himself"⟩]) := by
  decide

/-- Claim C4 (amended): when the resolved admin and resolved target share both
the same id and the same room id — as is always the case when the two lookups
read one consistent user store and the admin deletes themself — the handler
returns a BadRequest error tagged on field `id` with message "Admin cannot
delete himself", and the check fires before the room is loaded: the trace is
exactly the two user lookups, with no room load or update. -/
theorem C4_self_delete (env : Env) (code : String) (uid : Nat)
    (admin target : User)
    (h1 : env.getByCodeAsync code true false = Except.ok admin)
    (h2 : admin.isAdmin = true)
    (h3 : env.getByIdAsync uid false false = Except.ok target)
    (h4 : target.roomId = admin.roomId)
    (h5 : admin.id = target.id) :
    (handle env ⟨code, uid⟩).1 =
      Except.error (BadRequestError [⟨"id", "Admin cannot delete himself"⟩]) ∧
    (handle env ⟨code, uid⟩).2 =
      [RepoCall.getByCode code true false, RepoCall.getById uid false false] := by
  refine ⟨?_, ?_⟩ <;> simp [handle, h1, h2, h3, h4, h5]

/-- Witness for C4 (amended): the admin deleting their own id 1 is rejected
with BadRequest on `id` after exactly the two user lookups, though the room is
open. -/
theorem C4_self_delete_witness :
    (handle baseEnv ⟨"admin-code", 1⟩).1 =
      Except.error (BadRequestError [⟨"id", "Admin cannot delete himself"⟩]) ∧
    (handle baseEnv ⟨"admin-code", 1⟩).2 =
      [RepoCall.getByCode "admin-code" true false, RepoCall.getById 1 false false] :=
  C4_self_delete baseEnv "admin-code" 1 adminA adminA (by decide) (by decide)
    (by decide) (by decide) (by decide)

/-- Claim C2: when steps 1-5 pass (admin resolved and admin-flagged, target
resolved, same room, distinct ids) and the loaded room has a non-null ClosedOn,
the handler returns a BadRequest error tagged on field `room` with message
"Cannot delete user from a closed room"; the trace is exactly the three read
calls, so no UpdateAsync is issued and no mutated aggregate is ever persisted
(the handler never alters the loaded room on this path). -/
theorem C2_closed_room (env : Env) (code : String) (uid : Nat)
    (admin target : User) (room : Room) (t : Nat)
    (h1 : env.getByCodeAsync code true false = Except.ok admin)
    (h2 : admin.isAdmin = true)
    (h3 : env.getByIdAsync uid false false = Except.ok target)
    (h4 : target.roomId = admin.roomId)
    (h5 : admin.id ≠ target.id)
    (h6 : env.getRoomByUserCodeAsync code = Except.ok room)
    (h7 : room.closedOn = some t) :
    (handle env ⟨code, uid⟩).1 =
      Except.error (BadRequestError [⟨"room", "Cannot delete user from a closed room"⟩]) ∧
    (handle env ⟨code, uid⟩).2 =
      [RepoCall.getByCode code true false, RepoCall.getById uid false false,
       RepoCall.getRoomByUserCode code] ∧
    (handle env ⟨code, uid⟩).2.countP RepoCall.isUpdate = 0 := by
  refine ⟨?_, ?_, ?_⟩ <;>
    simp [handle, h1, h2, h3, h4, h5, h6, h7, List.countP, List.countP.go, RepoCall.isUpdate]

/-- Witness for C2: with the closed room fixture, the admin deleting user id 2
is rejected with BadRequest on `room` after the three read calls and zero
update calls. -/
theorem C2_closed_room_witness :
    (handle closedEnv ⟨"admin-code", 2⟩).1 =
      Except.error (BadRequestError [⟨"room", "Cannot delete user from a closed room"⟩]) ∧
    (handle closedEnv ⟨"admin-code", 2⟩).2 =
      [RepoCall.getByCode "admin-code" true false, RepoCall.getById 2 false false,
       RepoCall.getRoomByUserCode "admin-code"] ∧
    (handle closedEnv ⟨"admin-code", 2⟩).2.countP RepoCall.isUpdate = 0 :=
  C2_closed_room closedEnv "admin-code" 2 adminA userB closedRoom 5 (by decide)
    (by decide) (by decide) (by decide) (by decide) (by decide) (by decide)

/-- Claim C7: when steps 1-5 pass and the room-repository load fails, the
repository's failure is returned to the caller unchanged — the very same error
value, whatever its kind, fields and messages — not rewrapped into any of the
handler's own error constructors; no update call is issued. -/
theorem C7_room_failure_passthrough (env : Env) (code : String) (uid : Nat)
    (admin target : User) (e : ValidationError)
    (h1 : env.getByCodeAsync code true false = Except.ok admin)
    (h2 : admin.isAdmin = true)
    (h3 : env.getByIdAsync uid false false = Except.ok target)
    (h4 : target.roomId = admin.roomId)
    (h5 : admin.id ≠ target.id)
    (h6 : env.getRoomByUserCodeAsync code = Except.error e) :
    (handle env ⟨code, uid⟩).1 = Except.error e ∧
    (handle env ⟨code, uid⟩).2 =
      [RepoCall.getByCode code true false, RepoCall.getById uid false false,
       RepoCall.getRoomByUserCode code] := by
  refine ⟨?_, ?_⟩ <;> simp [handle, h1, h2, h3, h4, h5, h6]

/-- Witness for C7: a room lookup failing with a repository-made Forbidden
error on field `q` is passed through verbatim. -/
theorem C7_room_failure_passthrough_witness :
    (handle roomFailEnv ⟨"admin-code", 2⟩).1 =
      Except.error (ForbiddenError [⟨"q", "room blocked by repository"⟩]) ∧
    (handle roomFailEnv ⟨"admin-code", 2⟩).2 =
      [RepoCall.getByCode "admin-code" true false, RepoCall.getById 2 false false,
       RepoCall.getRoomByUserCode "admin-code"] :=
  C7_room_failure_passthrough roomFailEnv "admin-code" 2 adminA userB
    (ForbiddenError [⟨"q", "room blocked by repository"⟩]) (by decide) (by decide)
    (by decide) (by decide) (by decide) (by decide)

/-- Claim C8: on every invocation that reaches the persistence step (steps 1-7
pass), a failing UpdateAsync yields a BadRequest error tagged on the empty
field name carrying the repository's message verbatim, and a succeeding
UpdateAsync yields the success result with no payload. -/
theorem C8_update_result_mapping (env : Env) (code : String) (uid : Nat)
    (admin target : User) (room : Room)
    (h1 : env.getByCodeAsync code true false = Except.ok admin)
    (h2 : admin.isAdmin = true)
    (h3 : env.getByIdAsync uid false false = Except.ok target)
    (h4 : target.roomId = admin.roomId)
    (h5 : admin.id ≠ target.id)
    (h6 : env.getRoomByUserCodeAsync code = Except.ok room)
    (h7 : room.closedOn = none) :
    (∀ msg, env.updateAsync (removeUser room uid) = Except.error msg →
       (handle env ⟨code, uid⟩).1 =
         Except.error (BadRequestError [⟨"", msg⟩])) ∧
    (env.updateAsync (removeUser room uid) = Except.ok () →
       (handle env ⟨code, uid⟩).1 = Except.ok ()) := by
  constructor
  · intro msg hm
    simp [handle, h1, h2, h3, h4, h5, h6, h7, hm]
  · intro hm
    simp [handle, h1, h2, h3, h4, h5, h6, h7, hm]

/-- Witness for C8: with a failing update the admin's delete of user id 2 is
rejected with BadRequest on the empty field carrying "Database update failed"
verbatim; with a succeeding update the same delete returns success. -/
theorem C8_update_result_mapping_witness :
    (handle failUpdateEnv ⟨"admin-code", 2⟩).1 =
      Except.error (BadRequestError [⟨"", "Database update failed"⟩]) ∧
    (handle baseEnv ⟨"admin-code", 2⟩).1 = Except.ok () :=
  ⟨(C8_update_result_mapping failUpdateEnv "admin-code" 2 adminA userB openRoom
      (by decide) (by decide) (by decide) (by decide) (by decide) (by decide)
      (by decide)).1 "Database update failed" (by decide),
   (C8_update_result_mapping baseEnv "admin-code" 2 adminA userB openRoom
      (by decide) (by decide) (by decide) (by decide) (by decide) (by decide)
      (by decide)).2 (by decide)⟩

/-- Claim C9: when steps 1-7 pass but no user with the requested id is present
in the loaded room's Users collection, the mutate step is a silent no-op (the
room is unchanged), and the handler still issues the UpdateAsync call — on the
unchanged room — and returns UpdateAsync's mapped result. -/
theorem C9_absent_target_noop (env : Env) (code : String) (uid : Nat)
    (admin target : User) (room : Room)
    (h1 : env.getByCodeAsync code true false = Except.ok admin)
    (h2 : admin.isAdmin = true)
    (h3 : env.getByIdAsync uid false false = Except.ok target)
    (h4 : target.roomId = admin.roomId)
    (h5 : admin.id ≠ target.id)
    (h6 : env.getRoomByUserCodeAsync code = Except.ok room)
    (h7 : room.closedOn = none)
    (h8 : ∀ u ∈ room.users, u.id ≠ uid) :
    removeUser room uid = room ∧
    (handle env ⟨code, uid⟩).2 =
      [RepoCall.getByCode code true false, RepoCall.getById uid false false,
       RepoCall.getRoomByUserCode code, RepoCall.update room] ∧
    (handle env ⟨code, uid⟩).1 =
      (match env.updateAsync room with
       | Except.error msg => Except.error (BadRequestError [⟨"", msg⟩])
       | Except.ok _ => Except.ok ()) := by
  have hno : removeUser room uid = room := removeUser_noop room uid h8
  refine ⟨hno, ?_, ?_⟩ <;>
    cases hup : env.updateAsync room <;>
      simp [handle, h1, h2, h3, h4, h5, h6, h7, hno, hup]

/-- Witness for C9: user id 3 resolves and shares the admin's room, but is
absent from the open room's Users collection; the handler updates the
unchanged room and returns success. -/
theorem C9_absent_target_noop_witness :
    removeUser openRoom 3 = openRoom ∧
    (handle baseEnv ⟨"admin-code", 3⟩).2 =
      [RepoCall.getByCode "admin-code" true false, RepoCall.getById 3 false false,
       RepoCall.getRoomByUserCode "admin-code", RepoCall.update openRoom] ∧
    (handle baseEnv ⟨"admin-code", 3⟩).1 =
      (match baseEnv.updateAsync openRoom with
       | Except.error msg => Except.error (BadRequestError [⟨"", msg⟩])
       | Except.ok _ => Except.ok ()) :=
  C9_absent_target_noop baseEnv "admin-code" 3 adminA userC openRoom (by decide)
    (by decide) (by decide) (by decide) (by decide) (by decide) (by decide)
    (by decide)

/-- Claim C10: the handler discards whatever error the user-repository lookups
return — any kind, any content — and substitutes its fixed NotFound errors:
"User with such code not found" on `userCode` for the admin lookup, "User with
such id not found" on `id` for the target lookup; the repository's own error
from these two calls never reaches the caller. -/
theorem C10_lookup_errors_discarded (env : Env) (code : String) (uid : Nat) :
    (∀ e, env.getByCodeAsync code true false = Except.error e →
       (handle env ⟨code, uid⟩).1 =
         Except.error (NotFoundError [⟨"userCode", "User with such code not found"⟩])) ∧
    (∀ admin e, env.getByCodeAsync code true false = Except.ok admin →
       admin.isAdmin = true →
       env.getByIdAsync uid false false = Except.error e →
       (handle env ⟨code, uid⟩).1 =
         Except.error (NotFoundError [⟨"id", "User with such id not found"⟩])) := by
  constructor
  · intro e he
    simp [handle, he]
  · intro admin e hadmin hflag he
    simp [handle, hadmin, hflag, he]

/-- Witness for C10: user lookups failing with a Forbidden
"connection refused" error still surface as the handler's fixed NotFound
errors, for the admin lookup and for the target lookup. -/
theorem C10_lookup_errors_discarded_witness :
    (handle weirdUserEnv ⟨"admin-code", 5⟩).1 =
      Except.error (NotFoundError [⟨"userCode", "User with such code not found"⟩]) ∧
    (handle weirdTargetEnv ⟨"admin-code", 5⟩).1 =
      Except.error (NotFoundError [⟨"id", "User with such id not found"⟩]) :=
  ⟨(C10_lookup_errors_discarded weirdUserEnv "admin-code" 5).1
      (ForbiddenError [⟨"infra", "connection refused"⟩]) (by decide),
   (C10_lookup_errors_discarded weirdTargetEnv "admin-code" 5).2 adminA
      (ForbiddenError [⟨"infra", "connection refused"⟩]) (by decide) (by decide)
      (by decide)⟩

/-- Claim C1: when the admin lookup succeeds with an admin-flagged user, the
target lookup succeeds with a distinct user (carrying the requested id)
sharing the admin's room id, the room loads with ClosedOn null and contains the
target among its Users — ids being unique within a room per the data-model
invariant — and the repository update succeeds, then the handler returns
success, the room aggregate handed to persistence no longer contains any user
with the target id (its membership is one smaller than the loaded room's), and
exactly one UpdateAsync call occurs. -/
theorem C1_delete_participant_success (env : Env) (code : String) (uid : Nat)
    (admin target : User) (room : Room)
    (h1 : env.getByCodeAsync code true false = Except.ok admin)
    (h2 : admin.isAdmin = true)
    (h3 : env.getByIdAsync uid false false = Except.ok target)
    (h4 : target.id = uid)
    (h5 : admin.id ≠ target.id)
    (h6 : target.roomId = admin.roomId)
    (h7 : env.getRoomByUserCodeAsync code = Except.ok room)
    (h8 : room.closedOn = none)
    (h9 : target ∈ room.users)
    (h10 : room.users.Pairwise (fun a b => a.id ≠ b.id))
    (h11 : env.updateAsync (removeUser room uid) = Except.ok ()) :
    (handle env ⟨code, uid⟩).1 = Except.ok () ∧
    (∀ u ∈ (removeUser room uid).users, u.id ≠ uid) ∧
    (removeUser room uid).users.length + 1 = room.users.length ∧
    (handle env ⟨code, uid⟩).2 =
      [RepoCall.getByCode code true false, RepoCall.getById uid false false,
       RepoCall.getRoomByUserCode code, RepoCall.update (removeUser room uid)] ∧
    (handle env ⟨code, uid⟩).2.countP RepoCall.isUpdate = 1 := by
  have hclean : ∀ u ∈ (removeUser room uid).users, u.id ≠ uid := by
    intro u hu
    simp only [removeUser] at hu
    cases hf : room.users.find? (fun v => v.id == uid) with
    | none =>
      simp only [hf] at hu
      simpa using List.find?_eq_none.mp hf u hu
    | some w =>
      simp only [hf] at hu
      exact eraseP_id_ne uid room.users h10 u hu
  have hlen : (removeUser room uid).users.length + 1 = room.users.length := by
    simp only [removeUser]
    cases hf : room.users.find? (fun v => v.id == uid) with
    | none =>
      exact absurd (by simp [h4]) (List.find?_eq_none.mp hf target h9)
    | some w =>
      simp only [hf]
      exact List.length_eraseP_add_one h9 (by simp [h4])
  refine ⟨?_, hclean, hlen, ?_, ?_⟩ <;>
    simp [handle, h1, h2, h3, h5, h6, h7, h8, h11, List.countP_cons,
      RepoCall.isUpdate]

/-- Witness for C1: the admin of the open two-member room deletes user id 2;
the call succeeds, the persisted room has no user with id 2, and exactly one
update call occurs. -/
theorem C1_delete_participant_success_witness :
    (handle baseEnv ⟨"admin-code", 2⟩).1 = Except.ok () ∧
    (∀ u ∈ (removeUser openRoom 2).users, u.id ≠ 2) ∧
    (removeUser openRoom 2).users.length + 1 = openRoom.users.length ∧
    (handle baseEnv ⟨"admin-code", 2⟩).2 =
      [RepoCall.getByCode "admin-code" true false, RepoCall.getById 2 false false,
       RepoCall.getRoomByUserCode "admin-code", RepoCall.update (removeUser openRoom 2)] ∧
    (handle baseEnv ⟨"admin-code", 2⟩).2.countP RepoCall.isUpdate = 1 :=
  C1_delete_participant_success baseEnv "admin-code" 2 adminA userB openRoom
    (by decide) (by decide) (by decide) (by decide) (by decide) (by decide)
    (by decide) (by decide) (by decide) (by decide) (by decide)

end SecretSanta
